import Mathlib

/-!
Verification of the `script_locker` repository's bundle-encoding and
stream-cipher protocol against its design document.

Byte strings are modelled as `List Nat` (each element a byte value); 32-bit
machine arithmetic is modelled on `Nat` with explicit reduction `% 2 ^ 32`.
The repository contains two parallel implementations:
  * `src/fivem_locker/…`  (namespaces `SrcCrypto`, `SrcPacker` below), and
  * `tools/fivem_locker/…` (namespaces `ToolsCrypto`, `LuaLoader`, `ToolsCore`).
-/

namespace ScriptLocker

/-- Code points of an ASCII string as a byte list (every constant string used
in this development is ASCII, where UTF-8 bytes coincide with code points). -/
def asciiBytes (s : String) : List Nat :=
  s.toList.map Char.toNat

namespace SrcCrypto

/-- `FNV_OFFSET` from `src/fivem_locker/crypto.py`. -/
def FNV_OFFSET : Nat := 0x811C9DC5

/-- `FNV_PRIME` from `src/fivem_locker/crypto.py`. -/
def FNV_PRIME : Nat := 0x01000193

/-- Loop of `fnv1a32`: `value ^= b; value = (value * FNV_PRIME) & 0xFFFFFFFF`. -/
def fnv1a32Aux : Nat → List Nat → Nat
  | value, [] => value
  | value, b :: rest => fnv1a32Aux ((value ^^^ b) * FNV_PRIME % 2 ^ 32) rest

/-- `fnv1a32(data, seed=FNV_OFFSET)` from `src/fivem_locker/crypto.py`
(`value = seed & 0xFFFFFFFF` before the loop). -/
def fnv1a32 (data : List Nat) (seed : Nat := FNV_OFFSET) : Nat :=
  fnv1a32Aux (seed % 2 ^ 32) data

/-- `xorshift32(x)` from `src/fivem_locker/crypto.py`: each shifted value is
masked to 32 bits before the XOR, and the final result is masked again. -/
def xorshift32 (x : Nat) : Nat :=
  let x1 := x ^^^ ((x <<< 13) % 2 ^ 32)
  let x2 := x1 ^^^ ((x1 >>> 17) % 2 ^ 32)
  let x3 := x2 ^^^ ((x2 <<< 5) % 2 ^ 32)
  x3 % 2 ^ 32

/-- Loop of `keystream`: advance the state, emit its low byte. -/
def keystreamAux : Nat → Nat → List Nat
  | _, 0 => []
  | state, n + 1 =>
    let s := xorshift32 state
    s % 256 :: keystreamAux s n

/-- `keystream(length, seed)` from `src/fivem_locker/crypto.py`
(`state = seed & 0xFFFFFFFF` before the loop). -/
def keystream (length : Nat) (seed : Nat) : List Nat :=
  keystreamAux (seed % 2 ^ 32) length

/-- `encrypt_xor_stream(plaintext, key, side_tag)` from
`src/fivem_locker/crypto.py`.  The function draws `salt = os.urandom(8)`
internally; that random 8-byte value is passed here as the explicit `salt`
argument.  The side tag string is already encoded as its UTF-8 bytes.
Returns `salt(8) + ciphertext` (the function prepends no scheme tag). -/
def encrypt_xor_stream (plaintext key side_tag salt : List Nat) : List Nat :=
  let seed_material := key ++ salt ++ side_tag
  let seed := fnv1a32 seed_material
  let ks := keystream plaintext.length seed
  let ciphertext := List.zipWith (fun p k => p ^^^ k) plaintext ks
  salt ++ ciphertext

/-- The decode-side failure condition: `decrypt_xor_stream` raises
`ValueError("blob too small; missing salt")` on a short blob. -/
inductive CryptoError
  | malformedBlob
deriving DecidableEq, Repr

/-- `decrypt_xor_stream(blob, key, side_tag)` from `src/fivem_locker/crypto.py`. -/
def decrypt_xor_stream (blob key side_tag : List Nat) : Except CryptoError (List Nat) :=
  if blob.length < 8 then .error .malformedBlob
  else
    let salt := blob.take 8
    let ciphertext := blob.drop 8
    let seed_material := key ++ salt ++ side_tag
    let seed := fnv1a32 seed_material
    let ks := keystream ciphertext.length seed
    .ok (List.zipWith (fun c k => c ^^^ k) ciphertext ks)

end SrcCrypto

namespace ToolsCrypto

/-- Loop of `_fnv1a32` from `tools/fivem_locker/crypto.py`. -/
def fnv1a32Aux : Nat → List Nat → Nat
  | seed, [] => seed
  | seed, b :: rest => fnv1a32Aux ((seed ^^^ b) * 0x01000193 % 2 ^ 32) rest

/-- `_fnv1a32(data)` from `tools/fivem_locker/crypto.py`. -/
def fnv1a32 (data : List Nat) : Nat :=
  fnv1a32Aux 0x811C9DC5 data

/-- `_xorshift32(seed)` from `tools/fivem_locker/crypto.py`
(`x = seed & 0xFFFFFFFF` first, then the three masked shift/XOR steps). -/
def xorshift32 (seed : Nat) : Nat :=
  let x := seed % 2 ^ 32
  let x1 := x ^^^ ((x <<< 13) % 2 ^ 32)
  let x2 := x1 ^^^ ((x1 >>> 17) % 2 ^ 32)
  let x3 := x2 ^^^ ((x2 <<< 5) % 2 ^ 32)
  x3 % 2 ^ 32

/-- Loop of `_keystream` from `tools/fivem_locker/crypto.py`. -/
def keystreamAux : Nat → Nat → List Nat
  | _, 0 => []
  | x, n + 1 =>
    let x1 := xorshift32 x
    x1 % 256 :: keystreamAux x1 n

/-- `_keystream(seed, length)` from `tools/fivem_locker/crypto.py`. -/
def keystream (seed : Nat) (length : Nat) : List Nat :=
  keystreamAux seed length

/-- The `LockerCrypto` dataclass (`license_key: str`, `salt: str`), its string
fields modelled by their UTF-8 bytes. -/
structure LockerCrypto where
  license_key : List Nat
  salt : List Nat

/-- `LockerCrypto._derive_seed32(nonce)`:
`_fnv1a32((license_key + "|" + salt).encode("utf-8") + nonce)`.
`124` is the byte of `"|"`; UTF-8 encoding distributes over concatenation. -/
def derive_seed32 (c : LockerCrypto) (nonce : List Nat) : Nat :=
  fnv1a32 (c.license_key ++ [124] ++ c.salt ++ nonce)

/-- The scheme tag `b"XRF\x00"` prepended by `LockerCrypto.encrypt`. -/
def XRF_TAG : List Nat := [88, 82, 70, 0]

/-- `LockerCrypto.encrypt(data)` from `tools/fivem_locker/crypto.py`.  The
function draws `nonce = os.urandom(12)` internally; that random 12-byte value
is passed here as the explicit `nonce` argument. -/
def encrypt (c : LockerCrypto) (data nonce : List Nat) : List Nat :=
  let seed := derive_seed32 c nonce
  let ks := keystream seed data.length
  let out := List.zipWith (fun a b => a ^^^ b) data ks
  XRF_TAG ++ nonce ++ out

/-- `LockerCrypto.decrypt(data)` from `tools/fivem_locker/crypto.py`:
`raise NotImplementedError` (comment: "Not used in packer; loader uses Lua side"). -/
def decrypt (_ : LockerCrypto) (_ : List Nat) : Except String (List Nat) :=
  .error "NotImplementedError"

end ToolsCrypto

namespace LuaLoader

/-- `split_tag(data)` from the Lua loader template embedded in
`tools/fivem_locker/loader.py`: `string.sub(data,1,4)`, `string.sub(data,5,16)`,
`string.sub(data,17)`. -/
def split_tag (data : List Nat) : List Nat × List Nat × List Nat :=
  (data.take 4, (data.drop 4).take 12, data.drop 16)

/-- `decrypt(data)` from the Lua loader template embedded in
`tools/fivem_locker/loader.py`.  The Lua `bit` library operates on 32-bit
values, so its FNV-1a and xorshift32 loops compute the same functions as
`ToolsCrypto.fnv1a32` and `ToolsCrypto.keystream`; the seed material is
`lic .. "|" .. salt .. nonce`. -/
def decrypt (lic salt data : List Nat) : Except String (List Nat) :=
  let (tag, nonce, rest) := split_tag data
  if tag = ToolsCrypto.XRF_TAG then
    let seed := ToolsCrypto.fnv1a32 (lic ++ [124] ++ salt ++ nonce)
    let ks := ToolsCrypto.keystream seed rest.length
    .ok (List.zipWith (fun rb b => rb ^^^ b) rest ks)
  else
    .error "Unknown blob tag"

end LuaLoader

/-- Lexicographic order on byte lists, as a Boolean predicate.  Python compares
`str` values by code point, which on the ASCII names occurring here coincides
with this order on their byte lists. -/
def byteLe : List Nat → List Nat → Bool
  | [], _ => true
  | _ :: _, [] => false
  | a :: as, b :: bs => if a < b then true else if a = b then byteLe as bs else false

/-- The relation form of `byteLe`, used with `List.insertionSort`. -/
def ByteLeR (a b : List Nat) : Prop := byteLe a b = true

instance : DecidableRel ByteLeR := fun a b => by unfold ByteLeR; infer_instance

/-- `a.startswith(b)` on byte lists (Python `str.startswith`). -/
def startsWithBytes : List Nat → List Nat → Bool
  | _, [] => true
  | [], _ :: _ => false
  | a :: as, b :: bs => a = b && startsWithBytes as bs

namespace SrcPacker

/-- The bundle header `b"FLOK1\n"` from `_build_bundle_blob`
(`src/fivem_locker/packer.py`). -/
def HEADER : List Nat := [70, 76, 79, 75, 49, 10]

/-- Base-10 ASCII digits of a number, as produced by Python `f"{n}"`. -/
def asciiDec (n : Nat) : List Nat := (Nat.toDigits 10 n).map Char.toNat

/-- `f"N:{n}\n"` as bytes. -/
def countLine (n : Nat) : List Nat := [78, 58] ++ asciiDec n ++ [10]

/-- `f"P:{n}\n"` as bytes. -/
def pathLine (n : Nat) : List Nat := [80, 58] ++ asciiDec n ++ [10]

/-- `f"C:{n}\n"` as bytes. -/
def codeLine (n : Nat) : List Nat := [67, 58] ++ asciiDec n ++ [10]

/-- One loop iteration of `_build_bundle_blob`: the length-prefixed
relative-path field followed by the length-prefixed content field. -/
def entryBytes (e : List Nat × List Nat) : List Nat :=
  pathLine e.1.length ++ e.1 ++ codeLine e.2.length ++ e.2

/-- `_build_bundle_blob(resource_dir, file_paths)` from
`src/fivem_locker/packer.py`.  Files are passed as (relative path bytes,
content bytes) pairs, in the order of the `file_paths` list; the loop appends
the entries in exactly that order. -/
def build_bundle_blob (files : List (List Nat × List Nat)) : List Nat :=
  HEADER ++ countLine files.length ++ (files.map entryBytes).flatten

/-- `FileNotFoundError` raised by `pack_resource` for a missing resource
directory or a missing `fxmanifest.lua`/`__resource.lua`. -/
inductive PackError
  | notFound
deriving DecidableEq, Repr

/-- UTF-8 bytes of the `side_tag="client"` argument. -/
def CLIENT_TAG : List Nat := [99, 108, 105, 101, 110, 116]

/-- UTF-8 bytes of the `side_tag="server"` argument. -/
def SERVER_TAG : List Nat := [115, 101, 114, 118, 101, 114]

/-- The files `pack_resource` writes into the output directory.  A bundle
file's payload is recorded as the encrypted byte string handed to
`b64_encode` (the base64 text encoding of that payload is not modelled). -/
inductive OutFile
  | clientBundle (blob : List Nat)
  | clientLoader
  | serverBundle (blob : List Nat)
  | serverLoader
  | manifestFile
  | lockerInfo
deriving DecidableEq

/-- `pack_resource(resource_dir, out_dir, key=…, …)` from
`src/fivem_locker/packer.py`, as a function of its filesystem observations:
`rootExists` is `Path(resource_dir).exists()`; `manifestFound` is whether
`fxmanifest.lua` or `__resource.lua` exists under it; `client_files` and
`server_files` are the (relative path, content) pairs produced by
`_gather_files` for the two sides (manifest parsing and filesystem listing are
the inputs); `client_salt`/`server_salt` are the `os.urandom(8)` values drawn
inside the two `encrypt_xor_stream` calls.  Both existence checks precede any
write to the output directory; bundle and loader files are written only for a
side whose file list is non-empty, then the manifest and info files. -/
def pack_resource (rootExists manifestFound : Bool)
    (client_files server_files : List (List Nat × List Nat))
    (key client_salt server_salt : List Nat) :
    Except PackError (List OutFile) :=
  if !rootExists then .error .notFound
  else if !manifestFound then .error .notFound
  else
    let clientOut :=
      if client_files.isEmpty then []
      else
        [OutFile.clientBundle
            (SrcCrypto.encrypt_xor_stream (build_bundle_blob client_files) key CLIENT_TAG client_salt),
          OutFile.clientLoader]
    let serverOut :=
      if server_files.isEmpty then []
      else
        [OutFile.serverBundle
            (SrcCrypto.encrypt_xor_stream (build_bundle_blob server_files) key SERVER_TAG server_salt),
          OutFile.serverLoader]
    .ok (clientOut ++ serverOut ++ [OutFile.manifestFile, OutFile.lockerInfo])

end SrcPacker

namespace ToolsCore

/-- The script-listing fields of `ManifestData`
(`tools/fivem_locker/manifest.py`); the remaining metadata fields play no role
in the claims.  Paths are modelled as byte lists. -/
structure ManifestData where
  client_scripts : List (List Nat) := []
  server_scripts : List (List Nat) := []
  shared_scripts : List (List Nat) := []

/-- `read_manifest(root)` from `tools/fivem_locker/manifest.py` (lines 23-28),
as a function of its filesystem observation: `mf` is the already-extracted
data of the manifest file when one exists, `none` when neither
`fxmanifest.lua` nor `__resource.lua` exists.  A missing manifest returns the
default (empty) `ManifestData()`; it raises nothing. -/
def read_manifest (mf : Option ManifestData) : ManifestData :=
  mf.getD {}

/-- `is_client` from `process_resource` (`tools/fivem_locker/core.py` line 67):
`rel_str in manifest.client_scripts or rel_str.startswith("client/")`. -/
def is_client (m : ManifestData) (rel : List Nat) : Bool :=
  m.client_scripts.contains rel || startsWithBytes rel (asciiBytes "client/")

/-- `is_server` (line 68). -/
def is_server (m : ManifestData) (rel : List Nat) : Bool :=
  m.server_scripts.contains rel || startsWithBytes rel (asciiBytes "server/")

/-- `is_shared` (line 69). -/
def is_shared (m : ManifestData) (rel : List Nat) : Bool :=
  m.shared_scripts.contains rel || startsWithBytes rel (asciiBytes "shared/")

/-- Condition under which a Lua entry is inserted into `bundled_client`
(line 71): `is_client or is_shared`. -/
def in_client_bundle (m : ManifestData) (rel : List Nat) : Bool :=
  is_client m rel || is_shared m rel

/-- Condition under which a Lua entry is inserted into `bundled_server`
(line 73): `is_server or is_shared or (not is_client and not is_shared)`. -/
def in_server_bundle (m : ManifestData) (rel : List Nat) : Bool :=
  is_server m rel || is_shared m rel || (!is_client m rel && !is_shared m rel)

/-- ASCII lowercasing of one byte, modelling Python `str.lower()` on the
ASCII paths at issue. -/
def lowerByte (b : Nat) : Nat :=
  if 65 ≤ b ∧ b ≤ 90 then b + 32 else b

/-- The final path component (the part after the last `/` byte), modelling
`pathlib.PurePath.name` for the slash-separated relative file paths here. -/
def basenameBytes (rel : List Nat) : List Nat :=
  (rel.reverse.takeWhile (fun b => b != 47)).reverse

/-- `entry.rel_path.name.lower() in {"fxmanifest.lua", "__resource.lua"}`
(line 60): the lowercased basename of the relative path is tested against the
two manifest file names. -/
def is_manifest_name (rel : List Nat) : Bool :=
  let name := (basenameBytes rel).map lowerByte
  name = asciiBytes "fxmanifest.lua" || name = asciiBytes "__resource.lua"

/-- The `bundled_client` dict built by the file loop of `process_resource`:
Lua entries (in filesystem iteration order, manifest files skipped) whose
path satisfies `in_client_bundle`.  Each entry is (relative path bytes,
minified content bytes); paths are unique, so the insertion-ordered dict is an
association list. -/
def bundled_client (m : ManifestData) (entries : List (List Nat × List Nat)) :
    List (List Nat × List Nat) :=
  (entries.filter (fun e => !is_manifest_name e.1)).filter (fun e => in_client_bundle m e.1)

/-- The `bundled_server` dict built by the same loop. -/
def bundled_server (m : ManifestData) (entries : List (List Nat × List Nat)) :
    List (List Nat × List Nat) :=
  (entries.filter (fun e => !is_manifest_name e.1)).filter (fun e => in_server_bundle m e.1)

/-- `sorted(bundled.keys())` in `build_blob` (`tools/fivem_locker/core.py`
line 81/84): the dict's keys (insertion order) sorted lexicographically. -/
def build_blob_names (bundled : List (List Nat × List Nat)) : List (List Nat) :=
  List.insertionSort ByteLeR (bundled.map Prod.fst)

/-- The separator `"\n\n--[[BUNDLE_SPLIT]]\n\n"` as bytes. -/
def BUNDLE_SPLIT : List Nat := asciiBytes "\n\n--[[BUNDLE_SPLIT]]\n\n"

/-- The separator `"\n\n--[[META_SPLIT]]\n\n"` as bytes. -/
def META_SPLIT : List Nat := asciiBytes "\n\n--[[META_SPLIT]]\n\n"

/-- Association-list lookup by key equality (the semantics of a Python dict
whose insertion-ordered pairs are the list). -/
def assocLookup {α β : Type} [DecidableEq α] : List (α × β) → α → Option β
  | [], _ => none
  | (k, v) :: rest, a => if k = a then some v else assocLookup rest a

/-- `bundled[name]` (dict lookup; the keys are unique). -/
def lookupContent (bundled : List (List Nat × List Nat)) (name : List Nat) : List Nat :=
  (assocLookup bundled name).getD []

/-- The `concat` value of `build_blob` (line 81): the contents joined by
`BUNDLE_SPLIT` in sorted-key order. -/
def build_blob_concat (bundled : List (List Nat × List Nat)) : List Nat :=
  List.intercalate BUNDLE_SPLIT ((build_blob_names bundled).map (lookupContent bundled))

/-- The `toc` dict of the `payload` (line 80): name → content length, in the
dict's insertion order (which is `bundled`'s insertion order). -/
def build_blob_toc (bundled : List (List Nat × List Nat)) : List (List Nat × Nat) :=
  bundled.map (fun e => (e.1, e.2.length))

/-- The `files` list of the `payload` (line 84): `sorted(bundled.keys())`. -/
def build_blob_files (bundled : List (List Nat × List Nat)) : List (List Nat) :=
  build_blob_names bundled

/-- The plaintext handed to `crypto.encrypt` in `build_blob` (line 87), with
the JSON text of the payload record abstracted as the `meta` argument:
`meta + b"\n\n--[[META_SPLIT]]\n\n" + concat`. -/
def build_blob_plain (meta : List Nat) (bundled : List (List Nat × List Nat)) : List Nat :=
  meta ++ META_SPLIT ++ build_blob_concat bundled

/-- `FileNotFoundError` raised by `process_resource` for a missing resource
directory. -/
inductive CoreError
  | notFound
deriving DecidableEq, Repr

/-- The observable result of one `process_resource` run: the names of the
files written under the output directory, and the two bundle dicts. -/
structure CoreOutput where
  files : List (List Nat)
  client_bundle : List (List Nat × List Nat)
  server_bundle : List (List Nat × List Nat)
deriving DecidableEq

/-- `process_resource(resource_dir, output_dir, license_key, salt)` from
`tools/fivem_locker/core.py`, as a function of its filesystem observations:
`rootExists` is `resource_dir.exists()`; `mf` is the manifest observation
passed to `read_manifest`; `entries` are the Lua files found by `iter_files`
(relative path bytes, minified content bytes), with non-Lua assets omitted.
A missing resource directory raises before anything is written.  Otherwise
the run always writes both `client.blob` and `server.blob` (lines 90-93) and
both loaders and the rewritten manifest, whether or not the bundles are
empty. -/
def process_resource (rootExists : Bool) (mf : Option ManifestData)
    (entries : List (List Nat × List Nat)) : Except CoreError CoreOutput :=
  if !rootExists then .error .notFound
  else
    let m := read_manifest mf
    .ok
      { files :=
          [asciiBytes "client.blob", asciiBytes "server.blob",
            asciiBytes "client.lua", asciiBytes "server.lua",
            asciiBytes "fxmanifest.lua"]
        client_bundle := bundled_client m entries
        server_bundle := bundled_server m entries }

end ToolsCore

/-- Modelled from the spec: `derive_seed(key, salt, nonce, role_tag)` as the
spec's words state it — "concatenate `key || salt || nonce || role_tag` …
and fold it with a 32-bit FNV-1a accumulator".  Defined only for comparison
with the two implemented derivations (`SrcCrypto.encrypt_xor_stream`'s seed
and `ToolsCrypto.derive_seed32`). -/
def derive_seed_spec (key salt nonce role_tag : List Nat) : Nat :=
  SrcCrypto.fnv1a32 (key ++ salt ++ nonce ++ role_tag)

/-- The FNV-1a step the spec describes: XOR in the byte, multiply by the
prime, reduce modulo `2 ^ 32`. -/
def fnvStep (acc b : Nat) : Nat := (acc ^^^ b) * 0x01000193 % 2 ^ 32

instance {ε α : Type} [DecidableEq ε] [DecidableEq α] : DecidableEq (Except ε α) :=
  fun a b =>
    match a, b with
    | .error e₁, .error e₂ =>
      if h : e₁ = e₂ then isTrue (by rw [h]) else isFalse (fun hc => h (Except.error.inj hc))
    | .error _, .ok _ => isFalse (fun hc => Except.noConfusion hc)
    | .ok _, .error _ => isFalse (fun hc => Except.noConfusion hc)
    | .ok a₁, .ok a₂ =>
      if h : a₁ = a₂ then isTrue (by rw [h]) else isFalse (fun hc => h (Except.ok.inj hc))

theorem src_length_keystreamAux (n : Nat) :
    ∀ state, (SrcCrypto.keystreamAux state n).length = n := by
  induction n with
  | zero => intro state; rfl
  | succ n ih => intro state; simp [SrcCrypto.keystreamAux, ih]

theorem src_length_keystream (n seed : Nat) :
    (SrcCrypto.keystream n seed).length = n :=
  src_length_keystreamAux n _

theorem tools_length_keystreamAux (n : Nat) :
    ∀ x, (ToolsCrypto.keystreamAux x n).length = n := by
  induction n with
  | zero => intro x; rfl
  | succ n ih => intro x; simp [ToolsCrypto.keystreamAux, ih]

theorem tools_length_keystream (seed n : Nat) :
    (ToolsCrypto.keystream seed n).length = n :=
  tools_length_keystreamAux n _

theorem zipWith_xor_cancel :
    ∀ (p ks : List Nat), ks.length = p.length →
      List.zipWith (fun c k => c ^^^ k) (List.zipWith (fun a b => a ^^^ b) p ks) ks = p := by
  intro p
  induction p with
  | nil => intro ks _; simp
  | cons a as ih =>
    intro ks hlen
    cases ks with
    | nil => simp at hlen
    | cons k kt =>
      simp only [List.zipWith, List.cons.injEq]
      refine ⟨Nat.xor_cancel_right k a, ih kt ?_⟩
      simpa using hlen

theorem src_fnv1a32Aux_eq_foldl :
    ∀ (data : List Nat) (value : Nat),
      SrcCrypto.fnv1a32Aux value data = data.foldl fnvStep value := by
  intro data
  induction data with
  | nil => intro value; rfl
  | cons b rest ih =>
    intro value
    simp only [SrcCrypto.fnv1a32Aux, List.foldl, ih]
    rfl

theorem tools_fnv1a32Aux_eq_foldl :
    ∀ (data : List Nat) (seed : Nat),
      ToolsCrypto.fnv1a32Aux seed data = data.foldl fnvStep seed := by
  intro data
  induction data with
  | nil => intro seed; rfl
  | cons b rest ih =>
    intro seed
    simp only [ToolsCrypto.fnv1a32Aux, List.foldl, ih]
    rfl

theorem byteLe_total : ∀ a b, byteLe a b = true ∨ byteLe b a = true := by
  intro a
  induction a with
  | nil => intro b; left; rfl
  | cons x xs ih =>
    intro b
    cases b with
    | nil => right; rfl
    | cons y ys =>
      by_cases hxy : x < y
      · left; simp [byteLe, hxy]
      · by_cases heq : x = y
        · subst heq
          rcases ih ys with h | h
          · left; simp [byteLe, h]
          · right; simp [byteLe, h]
        · right
          have hyx : y < x := by omega
          simp [byteLe, hyx]

theorem byteLe_trans :
    ∀ a b c, byteLe a b = true → byteLe b c = true → byteLe a c = true := by
  intro a
  induction a with
  | nil => intro b c _ _; rfl
  | cons x xs ih =>
    intro b c hab hbc
    cases b with
    | nil => simp [byteLe] at hab
    | cons y ys =>
      cases c with
      | nil => simp [byteLe] at hbc
      | cons z zs =>
        by_cases hxy : x < y <;> by_cases hyz : y < z
        · have : x < z := Nat.lt_trans hxy hyz
          simp [byteLe, this]
        · by_cases hyeq : y = z
          · subst hyeq; simp [byteLe, hxy]
          · simp [byteLe, hyz, hyeq] at hbc
        · by_cases hxeq : x = y
          · subst hxeq
            simp [byteLe, hyz]
          · simp [byteLe, hxy, hxeq] at hab
        · by_cases hxeq : x = y
          · subst hxeq
            by_cases hyeq : x = z
            · subst hyeq
              simp only [byteLe, Nat.lt_irrefl, if_false, if_pos rfl] at hab hbc ⊢
              exact ih _ _ hab hbc
            · simp [byteLe, hyz, hyeq] at hbc
          · simp [byteLe, hxy, hxeq] at hab

theorem byteLe_antisymm :
    ∀ a b, byteLe a b = true → byteLe b a = true → a = b := by
  intro a
  induction a with
  | nil =>
    intro b _ hba
    cases b with
    | nil => rfl
    | cons y ys => simp [byteLe] at hba
  | cons x xs ih =>
    intro b hab hba
    cases b with
    | nil => simp [byteLe] at hab
    | cons y ys =>
      by_cases hxy : x < y
      · have : ¬y < x := by omega
        have : ¬y = x := by omega
        simp [byteLe, *] at hba
      · by_cases hxeq : x = y
        · subst hxeq
          simp only [byteLe, Nat.lt_irrefl, if_false, if_pos rfl] at hab hba
          exact congrArg _ (ih _ hab hba)
        · simp [byteLe, hxy, hxeq] at hab

instance : IsTotal (List Nat) ByteLeR := ⟨byteLe_total⟩

instance : IsTrans (List Nat) ByteLeR := ⟨byteLe_trans⟩

instance : IsAntisymm (List Nat) ByteLeR := ⟨byteLe_antisymm⟩

theorem lookup_eq_of_perm {α β : Type} [DecidableEq α]
    {l₁ l₂ : List (α × β)} (h : l₁.Perm l₂) (hnd : (l₁.map Prod.fst).Nodup) :
    ∀ a, ToolsCore.assocLookup l₁ a = ToolsCore.assocLookup l₂ a := by
  induction h with
  | nil => intro a; rfl
  | cons x h ih =>
    intro a
    simp only [List.map_cons, List.nodup_cons] at hnd
    obtain ⟨k, v⟩ := x
    simp only [ToolsCore.assocLookup]
    rw [ih hnd.2 a]
  | swap x y l =>
    intro a
    simp only [List.map_cons, List.nodup_cons, List.mem_cons] at hnd
    have hne : y.1 ≠ x.1 := fun he => hnd.1 (Or.inl he)
    obtain ⟨xk, xv⟩ := x
    obtain ⟨yk, yv⟩ := y
    simp only at hne
    by_cases hy : yk = a <;> by_cases hx : xk = a
    · exact absurd (hy.trans hx.symm) hne
    · simp [ToolsCore.assocLookup, hy, hx]
    · simp [ToolsCore.assocLookup, hy, hx]
    · simp [ToolsCore.assocLookup, hy, hx]
  | trans h₁ h₂ ih₁ ih₂ =>
    intro a
    rw [ih₁ hnd a, ih₂ ((h₁.map Prod.fst).nodup_iff.mp hnd) a]

/-- Claim C1, amended: seed derivation folds its material with the 32-bit
FNV-1a accumulator exactly as claimed (start `0x811C9DC5`, per byte XOR then
multiply by `0x01000193` modulo `2^32`), but the material is not
`key || salt || nonce || role_tag`: the tools cipher folds
`utf8(license_key) || "|" || utf8(salt) || nonce` with no role tag, and the
src cipher folds `key || salt || side_tag` where its 8-byte random `salt`
plays the nonce role and no static salt exists. -/
theorem c1_seed_material_fnv_fold :
    (∀ (c : ToolsCrypto.LockerCrypto) (nonce : List Nat),
        ToolsCrypto.derive_seed32 c nonce =
          (c.license_key ++ [124] ++ c.salt ++ nonce).foldl fnvStep 0x811C9DC5) ∧
    (∀ (plaintext key side_tag salt : List Nat),
        SrcCrypto.encrypt_xor_stream plaintext key side_tag salt =
          salt ++ List.zipWith (fun p k => p ^^^ k) plaintext
            (SrcCrypto.keystream plaintext.length
              ((key ++ salt ++ side_tag).foldl fnvStep 0x811C9DC5))) := by
  constructor
  · intro c nonce
    unfold ToolsCrypto.derive_seed32 ToolsCrypto.fnv1a32
    exact tools_fnv1a32Aux_eq_foldl _ _
  · intro p key tag salt
    simp only [SrcCrypto.encrypt_xor_stream, SrcCrypto.fnv1a32,
      src_fnv1a32Aux_eq_foldl]
    norm_num [SrcCrypto.FNV_OFFSET]

/-- Claim C1, counterexample: at key `"k"`, salt `"s"`, nonce `"n"`, the tools
seed derivation disagrees with the spec's
`FNV-1a(key || salt || nonce || role_tag)` — both with role tag `"client"`
and with the role tag dropped — because the implementation inserts a `"|"`
separator byte and appends no role tag. -/
theorem c1_counterexample :
    ToolsCrypto.derive_seed32 ⟨asciiBytes "k", asciiBytes "s"⟩ (asciiBytes "n") ≠
        derive_seed_spec (asciiBytes "k") (asciiBytes "s") (asciiBytes "n")
          (asciiBytes "client") ∧
    ToolsCrypto.derive_seed32 ⟨asciiBytes "k", asciiBytes "s"⟩ (asciiBytes "n") ≠
        derive_seed_spec (asciiBytes "k") (asciiBytes "s") (asciiBytes "n") [] := by
  decide

/-- Claim C2: the cipher is self-inverse.  For the src cipher,
`decrypt_xor_stream` inverts `encrypt_xor_stream` for every plaintext, key and
role tag, given the 8-byte nonce carried in the blob.  For the tools cipher,
whose Python `decrypt` is left unimplemented, the decoder is the Lua loader
template, and it likewise recovers every plaintext from `LockerCrypto.encrypt`
with the same license key and salt, given the 12-byte nonce carried in the
blob. -/
theorem c2_cipher_self_inverse :
    (∀ (p key side_tag salt : List Nat), salt.length = 8 →
        SrcCrypto.decrypt_xor_stream (SrcCrypto.encrypt_xor_stream p key side_tag salt)
          key side_tag = .ok p) ∧
    (∀ (c : ToolsCrypto.LockerCrypto) (p nonce : List Nat), nonce.length = 12 →
        LuaLoader.decrypt c.license_key c.salt (ToolsCrypto.encrypt c p nonce) = .ok p) := by
  constructor
  · intro p key tag salt hsalt
    have hks : (SrcCrypto.keystream p.length (SrcCrypto.fnv1a32 (key ++ salt ++ tag))).length
        = p.length := src_length_keystream _ _
    have hct : (List.zipWith (fun p k => p ^^^ k) p
        (SrcCrypto.keystream p.length (SrcCrypto.fnv1a32 (key ++ salt ++ tag)))).length
        = p.length := by
      simp [List.length_zipWith, src_length_keystream]
    simp only [SrcCrypto.encrypt_xor_stream, SrcCrypto.decrypt_xor_stream]
    rw [if_neg (by rw [List.length_append, hsalt]; omega)]
    rw [show (8 : Nat) = salt.length from hsalt.symm, List.take_left, List.drop_left, hct]
    exact congrArg Except.ok (zipWith_xor_cancel p _ hks)
  · intro c p nonce hnonce
    have hks : (ToolsCrypto.keystream (ToolsCrypto.derive_seed32 c nonce) p.length).length
        = p.length := tools_length_keystream _ _
    have hout : (List.zipWith (fun a b => a ^^^ b) p
        (ToolsCrypto.keystream (ToolsCrypto.derive_seed32 c nonce) p.length)).length
        = p.length := by
      simp [List.length_zipWith, tools_length_keystream]
    have hx4 : (4 : Nat) ≤ (ToolsCrypto.XRF_TAG ++ nonce).length := by
      simp [ToolsCrypto.XRF_TAG]
    simp only [ToolsCrypto.encrypt, LuaLoader.decrypt, LuaLoader.split_tag]
    rw [List.take_append_of_le_length hx4]
    rw [show (ToolsCrypto.XRF_TAG ++ nonce).take 4 = ToolsCrypto.XRF_TAG from by
      rw [List.take_append_of_le_length (by simp [ToolsCrypto.XRF_TAG])]; rfl]
    rw [List.drop_append_of_le_length hx4]
    rw [show (ToolsCrypto.XRF_TAG ++ nonce).drop 4 = nonce from by
      rw [show (4 : Nat) = ToolsCrypto.XRF_TAG.length from rfl, List.drop_left]]
    rw [show (12 : Nat) = nonce.length from hnonce.symm, List.take_left]
    rw [show (16 : Nat) = (ToolsCrypto.XRF_TAG ++ nonce).length from by
      simp [ToolsCrypto.XRF_TAG, hnonce], List.drop_left]
    rw [if_pos rfl, hout]
    rw [show ToolsCrypto.fnv1a32 (c.license_key ++ [124] ++ c.salt ++ nonce) =
      ToolsCrypto.derive_seed32 c nonce from rfl]
    exact congrArg Except.ok (zipWith_xor_cancel p _ hks)

/-- Claim C2, witness: the self-inverse round trip at concrete inputs for both
ciphers. -/
theorem c2_witness :
    ((List.replicate 8 0 : List Nat).length = 8 ∧
      SrcCrypto.decrypt_xor_stream
          (SrcCrypto.encrypt_xor_stream [10, 20] [1] [2] (List.replicate 8 0)) [1] [2] =
        .ok [10, 20]) ∧
    ((List.replicate 12 0 : List Nat).length = 12 ∧
      LuaLoader.decrypt (asciiBytes "key") (asciiBytes "salt")
          (ToolsCrypto.encrypt ⟨asciiBytes "key", asciiBytes "salt"⟩ [7, 8, 9]
            (List.replicate 12 0)) =
        .ok [7, 8, 9]) :=
  ⟨⟨by decide, c2_cipher_self_inverse.1 [10, 20] [1] [2] (List.replicate 8 0) (by decide)⟩,
    ⟨by decide, c2_cipher_self_inverse.2 ⟨asciiBytes "key", asciiBytes "salt"⟩ [7, 8, 9]
      (List.replicate 12 0) (by decide)⟩⟩

/-- Claim C3, amended: the tools cipher returns
`tag || nonce || ciphertext` with the fixed 4-byte scheme tag `XRF\x00`, a
fresh random 12-byte nonce and a ciphertext of exactly the plaintext's
length; the src cipher returns `nonce || ciphertext` with a fresh random
8-byte value (named `salt` in the code) and no scheme tag. -/
theorem c3_blob_layout :
    (∀ (c : ToolsCrypto.LockerCrypto) (p nonce : List Nat), nonce.length = 12 →
        ∃ ct, ToolsCrypto.encrypt c p nonce = ToolsCrypto.XRF_TAG ++ nonce ++ ct ∧
          ct.length = p.length) ∧
    (∀ (p key side_tag salt : List Nat), salt.length = 8 →
        ∃ ct, SrcCrypto.encrypt_xor_stream p key side_tag salt = salt ++ ct ∧
          ct.length = p.length) := by
  constructor
  · intro c p nonce _
    refine ⟨_, rfl, ?_⟩
    simp [List.length_zipWith, tools_length_keystream]
  · intro p key tag salt _
    refine ⟨_, rfl, ?_⟩
    simp [List.length_zipWith, src_length_keystream]

/-- Claim C3, witness: the blob layout at concrete inputs for both ciphers. -/
theorem c3_witness :
    ((List.replicate 12 0 : List Nat).length = 12 ∧
      ∃ ct, ToolsCrypto.encrypt ⟨[1], [2]⟩ [5, 6] (List.replicate 12 0) =
          ToolsCrypto.XRF_TAG ++ List.replicate 12 0 ++ ct ∧ ct.length = 2) ∧
    ((List.replicate 8 0 : List Nat).length = 8 ∧
      ∃ ct, SrcCrypto.encrypt_xor_stream [5, 6] [1] [2] (List.replicate 8 0) =
          List.replicate 8 0 ++ ct ∧ ct.length = 2) :=
  ⟨⟨by decide, c3_blob_layout.1 ⟨[1], [2]⟩ [5, 6] (List.replicate 12 0) (by decide)⟩,
    ⟨by decide, c3_blob_layout.2 [5, 6] [1] [2] (List.replicate 8 0) (by decide)⟩⟩

/-- Claim C3, counterexample: no fixed non-empty tag precedes the nonce in the
src cipher's output — the returned blob begins directly with the random
8-byte value, so its leading bytes vary with that value. -/
theorem c3_counterexample :
    ¬ ∃ t : List Nat, t ≠ [] ∧ ∀ salt : List Nat, salt.length = 8 →
        (SrcCrypto.encrypt_xor_stream [] [] [] salt).take t.length = t := by
  rintro ⟨t, hne, hall⟩
  have h0 := hall (List.replicate 8 0) (by decide)
  have h1 := hall (1 :: List.replicate 7 0) (by decide)
  simp only [SrcCrypto.encrypt_xor_stream, List.length_nil, List.zipWith_nil_left,
    List.append_nil] at h0 h1
  cases t with
  | nil => exact hne rfl
  | cons a t' =>
    have e0 : (0 : Nat) = a := by
      have := congrArg (fun l => l.headI) h0
      simpa [List.replicate, List.take_succ_cons] using this
    have e1 : (1 : Nat) = a := by
      have := congrArg (fun l => l.headI) h1
      simpa [List.take_succ_cons] using this
    omega

/-- Claim C4, amended: the src packaging pipeline encrypts the client bundle
with role tag `"client"` and the server bundle with role tag `"server"`, and
the tag enters the seed material, so wrong-role decryption fails to recover
the plaintext for typical inputs — demonstrated at the spec scenario values
(key `"abc123"` and its 10-byte Lua print-statement plaintext, given here as
explicit bytes) — though not for every input, and
the tools cipher derives its seed without any role tag. -/
theorem c4_role_tags :
    (∀ (client_files server_files : List (List Nat × List Nat)) (key csalt ssalt : List Nat),
        client_files.isEmpty = false → server_files.isEmpty = false →
        SrcPacker.pack_resource true true client_files server_files key csalt ssalt =
          .ok [SrcPacker.OutFile.clientBundle
                (SrcCrypto.encrypt_xor_stream (SrcPacker.build_bundle_blob client_files)
                  key SrcPacker.CLIENT_TAG csalt),
              SrcPacker.OutFile.clientLoader,
              SrcPacker.OutFile.serverBundle
                (SrcCrypto.encrypt_xor_stream (SrcPacker.build_bundle_blob server_files)
                  key SrcPacker.SERVER_TAG ssalt),
              SrcPacker.OutFile.serverLoader,
              SrcPacker.OutFile.manifestFile, SrcPacker.OutFile.lockerInfo]) ∧
    SrcCrypto.fnv1a32 (asciiBytes "abc123" ++ List.replicate 8 48 ++ SrcPacker.CLIENT_TAG) ≠
      SrcCrypto.fnv1a32 (asciiBytes "abc123" ++ List.replicate 8 48 ++ SrcPacker.SERVER_TAG) ∧
    SrcCrypto.decrypt_xor_stream
        (SrcCrypto.encrypt_xor_stream [112, 114, 105, 110, 116, 40, 39, 99, 39, 41]
          (asciiBytes "abc123") SrcPacker.CLIENT_TAG (List.replicate 8 48))
        (asciiBytes "abc123") SrcPacker.SERVER_TAG ≠
      .ok [112, 114, 105, 110, 116, 40, 39, 99, 39, 41] := by
  refine ⟨?_, by decide, by decide⟩
  intro cf sf key cs ss hc hs
  simp [SrcPacker.pack_resource, hc, hs]

/-- Claim C4, witness: the packaging equation at concrete one-file bundles. -/
theorem c4_witness :
    (([([97], [1])] : List (List Nat × List Nat)).isEmpty = false ∧
      ([([98], [2])] : List (List Nat × List Nat)).isEmpty = false ∧
      SrcPacker.pack_resource true true [([97], [1])] [([98], [2])] [107]
          (List.replicate 8 0) (List.replicate 8 0) =
        .ok [SrcPacker.OutFile.clientBundle
              (SrcCrypto.encrypt_xor_stream (SrcPacker.build_bundle_blob [([97], [1])])
                [107] SrcPacker.CLIENT_TAG (List.replicate 8 0)),
            SrcPacker.OutFile.clientLoader,
            SrcPacker.OutFile.serverBundle
              (SrcCrypto.encrypt_xor_stream (SrcPacker.build_bundle_blob [([98], [2])])
                [107] SrcPacker.SERVER_TAG (List.replicate 8 0)),
            SrcPacker.OutFile.serverLoader,
            SrcPacker.OutFile.manifestFile, SrcPacker.OutFile.lockerInfo]) :=
  ⟨by decide, by decide,
    c4_role_tags.1 [([97], [1])] [([98], [2])] [107] (List.replicate 8 0)
      (List.replicate 8 0) (by decide) (by decide)⟩

/-- Claim C4, counterexample: wrong-role decryption can recover the plaintext.
With key `"k"`, an all-zero 8-byte nonce and the distinct role tags `"m"` and
`"aa"`, the two derived keystreams share their first byte, so the nonempty
one-byte plaintext `[42]` encrypted under role `"m"` decrypts to itself under
role `"aa"`. -/
theorem c4_counterexample :
    ([109] : List Nat) ≠ [97, 97] ∧ ([42] : List Nat) ≠ [] ∧
    SrcCrypto.decrypt_xor_stream
        (SrcCrypto.encrypt_xor_stream [42] [107] [109] (List.replicate 8 0))
        [107] [97, 97] = .ok [42] :=
  ⟨by decide, by decide, by rfl⟩

/-- Claim C5, amended: only the src cipher checks the blob length —
`decrypt_xor_stream` fails with the `MalformedBlob` condition (the code
raises `ValueError("blob too small; missing salt")`) on every blob shorter
than `len(tag) + len(nonce)` = 0 + 8 bytes.  The tools scheme performs no
such check: its Python `decrypt` raises `NotImplementedError` on every
input, and its Lua loader decoder silently accepts `XRF\x00`-tagged blobs
shorter than `len(tag) + len(nonce)` = 4 + 12 bytes, returning a truncated
plaintext instead of an error. -/
theorem c5_short_blob_handling :
    (∀ (blob key side_tag : List Nat), blob.length < 8 →
        SrcCrypto.decrypt_xor_stream blob key side_tag = .error .malformedBlob) ∧
    (∀ (c : ToolsCrypto.LockerCrypto) (data : List Nat),
        ToolsCrypto.decrypt c data = .error "NotImplementedError") ∧
    (∀ (lic salt extra : List Nat), extra.length ≤ 11 →
        (ToolsCrypto.XRF_TAG ++ extra).length < 4 + 12 ∧
        ∃ p, LuaLoader.decrypt lic salt (ToolsCrypto.XRF_TAG ++ extra) = .ok p) := by
  refine ⟨?_, fun _ _ => rfl, ?_⟩
  · intro blob key tag h
    simp only [SrcCrypto.decrypt_xor_stream]
    rw [if_pos h]
  · intro lic salt extra h
    constructor
    · simp [ToolsCrypto.XRF_TAG, List.length_append]
      omega
    · simp only [LuaLoader.decrypt, LuaLoader.split_tag]
      rw [show (4 : Nat) = ToolsCrypto.XRF_TAG.length from rfl, List.take_left]
      rw [if_pos rfl]
      exact ⟨_, rfl⟩

/-- Claim C5, witness: a 3-byte blob is rejected as malformed by the src
cipher, and a 6-byte tagged blob is accepted by the Lua loader decoder. -/
theorem c5_witness :
    (([1, 2, 3] : List Nat).length < 8 ∧
      SrcCrypto.decrypt_xor_stream [1, 2, 3] [] [] = .error .malformedBlob) ∧
    (([0, 0] : List Nat).length ≤ 11 ∧
      (ToolsCrypto.XRF_TAG ++ [0, 0]).length < 4 + 12 ∧
      ∃ p, LuaLoader.decrypt [1] [2] (ToolsCrypto.XRF_TAG ++ [0, 0]) = .ok p) :=
  ⟨⟨by decide, c5_short_blob_handling.1 [1, 2, 3] [] [] (by decide)⟩,
    ⟨by decide, c5_short_blob_handling.2.2 [1] [2] [0, 0] (by decide)⟩⟩

/-- Claim C5, counterexample: in the tools scheme a 6-byte blob — shorter
than `len(tag) + len(nonce)` = 16 — does not fail with `MalformedBlob`: the
Lua loader decoder accepts it and returns the empty plaintext, and the Python
`LockerCrypto.decrypt` raises `NotImplementedError`, an input-independent
failure that is not the short-blob condition. -/
theorem c5_counterexample :
    (ToolsCrypto.XRF_TAG ++ [0, 0]).length < 4 + 12 ∧
    LuaLoader.decrypt [] [] (ToolsCrypto.XRF_TAG ++ [0, 0]) = .ok [] ∧
    ToolsCrypto.decrypt ⟨[], []⟩ (ToolsCrypto.XRF_TAG ++ [0, 0]) =
      .error "NotImplementedError" :=
  ⟨by decide, by rfl, by rfl⟩

/-- Claim C6, amended: the separator-form serializer of the tools pipeline
(`build_blob`) emits its `files` list and its content concatenation in
lexicographically sorted name order — the sorted names are a permutation of
the bundle's keys, and the serialization is invariant under the bundle's
insertion order — while the length-prefixed serializer of the src pipeline
(`_build_bundle_blob`) concatenates entries in the caller's insertion order;
the `toc` mapping of the tools payload iterates in insertion order, its
sorted iteration contract being carried by the `files` list. -/
theorem c6_serializer_order :
    (∀ bundled : List (List Nat × List Nat),
        (ToolsCore.build_blob_files bundled).Sorted ByteLeR ∧
        (ToolsCore.build_blob_files bundled).Perm (bundled.map Prod.fst) ∧
        ToolsCore.build_blob_concat bundled =
          List.intercalate ToolsCore.BUNDLE_SPLIT
            ((ToolsCore.build_blob_files bundled).map (ToolsCore.lookupContent bundled)) ∧
        ToolsCore.build_blob_toc bundled = bundled.map (fun e => (e.1, e.2.length))) ∧
    (∀ b₁ b₂ : List (List Nat × List Nat), b₁.Perm b₂ → (b₁.map Prod.fst).Nodup →
        ToolsCore.build_blob_files b₁ = ToolsCore.build_blob_files b₂ ∧
        ToolsCore.build_blob_concat b₁ = ToolsCore.build_blob_concat b₂) := by
  constructor
  · intro bundled
    exact ⟨List.sorted_insertionSort ByteLeR _, List.perm_insertionSort ByteLeR _, rfl, rfl⟩
  · intro b₁ b₂ hperm hnd
    have hnames : ToolsCore.build_blob_files b₁ = ToolsCore.build_blob_files b₂ := by
      refine List.eq_of_perm_of_sorted ?_ (List.sorted_insertionSort ByteLeR _)
        (List.sorted_insertionSort ByteLeR _)
      exact ((List.perm_insertionSort ByteLeR _).trans (hperm.map Prod.fst)).trans
        (List.perm_insertionSort ByteLeR _).symm
    refine ⟨hnames, ?_⟩
    have hnames' : ToolsCore.build_blob_names b₁ = ToolsCore.build_blob_names b₂ := hnames
    unfold ToolsCore.build_blob_concat
    rw [hnames']
    congr 1
    refine List.map_congr_left fun n _ => ?_
    unfold ToolsCore.lookupContent
    rw [lookup_eq_of_perm hperm hnd n]

/-- Claim C6, witness: insertion-order independence of the tools serializer at
a concrete two-file bundle presented in both orders. -/
theorem c6_witness :
    (([([98], [120]), ([97], [121])] : List (List Nat × List Nat)).Perm
        [([97], [121]), ([98], [120])] ∧
      (([([98], [120]), ([97], [121])] : List (List Nat × List Nat)).map Prod.fst).Nodup) ∧
    (ToolsCore.build_blob_files [([98], [120]), ([97], [121])] =
        ToolsCore.build_blob_files [([97], [121]), ([98], [120])] ∧
      ToolsCore.build_blob_concat [([98], [120]), ([97], [121])] =
        ToolsCore.build_blob_concat [([97], [121]), ([98], [120])]) :=
  ⟨⟨by decide, by decide⟩,
    c6_serializer_order.2 [([98], [120]), ([97], [121])] [([97], [121]), ([98], [120])]
      (by decide) (by decide)⟩

/-- Claim C6, counterexample: the src serializer `_build_bundle_blob` is not
in sorted name order — the same two-file mapping serialized with insertion
orders `[b, a]` and `[a, b]` yields different byte sequences, so the entry
order follows insertion order, not the sorted names. -/
theorem c6_counterexample :
    (([([98], [120]), ([97], [121])] : List (List Nat × List Nat)).Perm
        [([97], [121]), ([98], [120])]) ∧
    SrcPacker.build_bundle_blob [([98], [120]), ([97], [121])] ≠
      SrcPacker.build_bundle_blob [([97], [121]), ([98], [120])] := by
  constructor
  · decide
  · decide

/-- Claim C7, amended: in the tools pipeline a script path that matches none
of the client/server/shared listings **and** does not lie under a `client/`,
`server/` or `shared/` directory is bundled into the server bundle and not
into the client bundle; the code also treats those directory prefixes as
matches, so an unlisted path under `client/` is bundled as client instead. -/
theorem c7_classifier_fallback :
    ∀ (m : ToolsCore.ManifestData) (rel : List Nat),
      m.client_scripts.contains rel = false →
      m.server_scripts.contains rel = false →
      m.shared_scripts.contains rel = false →
      startsWithBytes rel (asciiBytes "client/") = false →
      startsWithBytes rel (asciiBytes "server/") = false →
      startsWithBytes rel (asciiBytes "shared/") = false →
      ToolsCore.in_server_bundle m rel = true ∧
      ToolsCore.in_client_bundle m rel = false ∧
      ∀ (entries : List (List Nat × List Nat)) (content : List Nat),
        ToolsCore.is_manifest_name rel = false →
        (rel, content) ∈ entries →
        (rel, content) ∈ ToolsCore.bundled_server m entries ∧
        (rel, content) ∉ ToolsCore.bundled_client m entries := by
  intro m rel h1 h2 h3 h4 h5 h6
  have h1' : rel ∉ m.client_scripts := by simpa using h1
  have h3' : rel ∉ m.shared_scripts := by simpa using h3
  have hsrv : ToolsCore.in_server_bundle m rel = true := by
    simp [ToolsCore.in_server_bundle, ToolsCore.is_client, ToolsCore.is_server,
      ToolsCore.is_shared, h4, h5, h6, h1', h3']
  have hcl : ToolsCore.in_client_bundle m rel = false := by
    simp [ToolsCore.in_client_bundle, ToolsCore.is_client, ToolsCore.is_shared,
      h4, h6, h1', h3']
  refine ⟨hsrv, hcl, ?_⟩
  intro entries content hmf hmem
  constructor
  · simp [ToolsCore.bundled_server, List.mem_filter, hmem, hmf, hsrv]
  · simp [ToolsCore.bundled_client, List.mem_filter, hcl]

/-- Claim C7, witness: the fallback at a concrete manifest and path. -/
theorem c7_witness :
    ((ToolsCore.ManifestData.mk [asciiBytes "x.lua"] [] []).client_scripts.contains
        (asciiBytes "other.lua") = false ∧
      startsWithBytes (asciiBytes "other.lua") (asciiBytes "client/") = false) ∧
    (ToolsCore.in_server_bundle (ToolsCore.ManifestData.mk [asciiBytes "x.lua"] [] [])
        (asciiBytes "other.lua") = true ∧
      ToolsCore.in_client_bundle (ToolsCore.ManifestData.mk [asciiBytes "x.lua"] [] [])
        (asciiBytes "other.lua") = false) ∧
    ((asciiBytes "other.lua", [1]) ∈
        ToolsCore.bundled_server (ToolsCore.ManifestData.mk [asciiBytes "x.lua"] [] [])
          [(asciiBytes "other.lua", [1])] ∧
      (asciiBytes "other.lua", [1]) ∉
        ToolsCore.bundled_client (ToolsCore.ManifestData.mk [asciiBytes "x.lua"] [] [])
          [(asciiBytes "other.lua", [1])]) := by
  have h := c7_classifier_fallback (ToolsCore.ManifestData.mk [asciiBytes "x.lua"] [] [])
    (asciiBytes "other.lua") (by decide) (by decide) (by decide) (by decide) (by decide)
    (by decide)
  exact ⟨⟨by decide, by decide⟩, ⟨h.1, h.2.1⟩,
    h.2.2 [(asciiBytes "other.lua", [1])] [1] (by decide) (by decide)⟩

/-- Claim C7, counterexample: an unlisted path under `client/` is not
classified as a server script — with all three listings empty, the path
`client/a.lua` goes to the client bundle only. -/
theorem c7_counterexample :
    (ToolsCore.ManifestData.mk [] [] []).client_scripts.contains
        (asciiBytes "client/a.lua") = false ∧
    ToolsCore.in_client_bundle (ToolsCore.ManifestData.mk [] [] [])
        (asciiBytes "client/a.lua") = true ∧
    ToolsCore.in_server_bundle (ToolsCore.ManifestData.mk [] [] [])
        (asciiBytes "client/a.lua") = false ∧
    ToolsCore.bundled_client (ToolsCore.ManifestData.mk [] [] [])
        [(asciiBytes "client/a.lua", [1])] = [(asciiBytes "client/a.lua", [1])] ∧
    ToolsCore.bundled_server (ToolsCore.ManifestData.mk [] [] [])
        [(asciiBytes "client/a.lua", [1])] = [] := by
  decide

/-- Claim C8, amended: the src packer writes a bundle blob only for a side
with at least one gathered file — an empty side produces no blob file — while
the tools pipeline always writes both `client.blob` and `server.blob`, even
when the corresponding bundle is empty. -/
theorem c8_empty_side :
    (∀ (client_files : List (List Nat × List Nat)) (key csalt ssalt : List Nat),
        ∃ outs, SrcPacker.pack_resource true true client_files [] key csalt ssalt =
            .ok outs ∧
          ∀ blob, SrcPacker.OutFile.serverBundle blob ∉ outs) ∧
    (∀ (mf : Option ToolsCore.ManifestData) (entries : List (List Nat × List Nat)),
        ∃ out, ToolsCore.process_resource true mf entries = .ok out ∧
          asciiBytes "client.blob" ∈ out.files ∧ asciiBytes "server.blob" ∈ out.files) := by
  constructor
  · intro cf key cs ss
    by_cases hc : cf.isEmpty
    · refine ⟨[SrcPacker.OutFile.manifestFile, SrcPacker.OutFile.lockerInfo], ?_, ?_⟩
      · simp [SrcPacker.pack_resource, hc]
      · intro blob; simp
    · refine ⟨[SrcPacker.OutFile.clientBundle
          (SrcCrypto.encrypt_xor_stream (SrcPacker.build_bundle_blob cf) key
            SrcPacker.CLIENT_TAG cs),
          SrcPacker.OutFile.clientLoader,
          SrcPacker.OutFile.manifestFile, SrcPacker.OutFile.lockerInfo], ?_, ?_⟩
      · simp [SrcPacker.pack_resource, hc]
      · intro blob; simp
  · intro mf entries
    refine ⟨_, rfl, ?_, ?_⟩ <;> simp [ToolsCore.process_resource]

/-- Claim C8, counterexample: a run of the tools pipeline with no Lua entries
has an empty server bundle and still writes `server.blob`. -/
theorem c8_counterexample :
    ∃ out, ToolsCore.process_resource true (some (ToolsCore.ManifestData.mk [] [] [])) [] =
        .ok out ∧
      out.server_bundle = [] ∧ asciiBytes "server.blob" ∈ out.files := by
  refine ⟨_, rfl, rfl, by decide⟩

/-- Claim C9, amended: a missing resource root aborts both pipelines with the
`NotFound` error before any output is written; a missing manifest aborts only
the src packer — the tools pipeline's `read_manifest` returns empty listings
for a missing manifest and the run continues and writes its output. -/
theorem c9_missing_inputs :
    (∀ (mf : Option ToolsCore.ManifestData) (entries : List (List Nat × List Nat)),
        ToolsCore.process_resource false mf entries = .error .notFound) ∧
    (∀ (manifestFound : Bool) (cf sf : List (List Nat × List Nat)) (key cs ss : List Nat),
        SrcPacker.pack_resource false manifestFound cf sf key cs ss = .error .notFound) ∧
    (∀ (cf sf : List (List Nat × List Nat)) (key cs ss : List Nat),
        SrcPacker.pack_resource true false cf sf key cs ss = .error .notFound) :=
  ⟨fun _ _ => rfl, fun _ _ _ _ _ _ => rfl, fun _ _ _ _ _ => rfl⟩

/-- Claim C9, counterexample: with the resource root present but no manifest
file, the tools pipeline does not abort — `read_manifest` yields the default
empty data and the run completes, writing `server.blob` among its outputs. -/
theorem c9_counterexample :
    ∃ out, ToolsCore.process_resource true none [(asciiBytes "a.lua", [1])] = .ok out ∧
      asciiBytes "server.blob" ∈ out.files := by
  refine ⟨_, rfl, by decide⟩

/-- Claim C10: each cipher's output length is the plaintext length plus a
fixed header overhead — 4 (tag) + 12 (nonce) = 16 bytes for the tools cipher
and 0 (no tag) + 8 (nonce) = 8 bytes for the src cipher — and the empty
plaintext encrypts to exactly the header bytes. -/
theorem c10_ciphertext_length :
    (∀ (c : ToolsCrypto.LockerCrypto) (p nonce : List Nat), nonce.length = 12 →
        (ToolsCrypto.encrypt c p nonce).length = p.length + 16 ∧
        ToolsCrypto.encrypt c [] nonce = ToolsCrypto.XRF_TAG ++ nonce) ∧
    (∀ (p key side_tag salt : List Nat), salt.length = 8 →
        (SrcCrypto.encrypt_xor_stream p key side_tag salt).length = p.length + 8 ∧
        SrcCrypto.encrypt_xor_stream [] key side_tag salt = salt) := by
  constructor
  · intro c p nonce hnonce
    constructor
    · simp [ToolsCrypto.encrypt, List.length_append, List.length_zipWith,
        tools_length_keystream, ToolsCrypto.XRF_TAG, hnonce]
      omega
    · simp [ToolsCrypto.encrypt]
  · intro p key tag salt hsalt
    constructor
    · simp [SrcCrypto.encrypt_xor_stream, List.length_append, List.length_zipWith,
        src_length_keystream, hsalt]
      omega
    · simp [SrcCrypto.encrypt_xor_stream]

/-- Claim C10, witness: the length invariant at concrete inputs. -/
theorem c10_witness :
    ((List.replicate 12 0 : List Nat).length = 12 ∧
      (ToolsCrypto.encrypt ⟨[1], [2]⟩ [5, 6, 7] (List.replicate 12 0)).length = 3 + 16 ∧
      ToolsCrypto.encrypt ⟨[1], [2]⟩ [] (List.replicate 12 0) =
        ToolsCrypto.XRF_TAG ++ List.replicate 12 0) ∧
    ((List.replicate 8 0 : List Nat).length = 8 ∧
      (SrcCrypto.encrypt_xor_stream [5, 6, 7] [1] [2] (List.replicate 8 0)).length = 3 + 8 ∧
      SrcCrypto.encrypt_xor_stream [] [1] [2] (List.replicate 8 0) = List.replicate 8 0) :=
  ⟨⟨by decide,
      (c10_ciphertext_length.1 ⟨[1], [2]⟩ [5, 6, 7] (List.replicate 12 0) (by decide)).1,
      (c10_ciphertext_length.1 ⟨[1], [2]⟩ [5, 6, 7] (List.replicate 12 0) (by decide)).2⟩,
    ⟨by decide,
      (c10_ciphertext_length.2 [5, 6, 7] [1] [2] (List.replicate 8 0) (by decide)).1,
      (c10_ciphertext_length.2 [5, 6, 7] [1] [2] (List.replicate 8 0) (by decide)).2⟩⟩

end ScriptLocker
